import Mathlib

/-!
Verification of the metric staging buffer in `pkg/metrics/collector.go`
(openshift-cherrypick-robot/vsphere-problem-detector).

The Go `Collector` holds two slices of metrics (`storedMetrics`, the
generation being accumulated, and `staleMetrics`, the last completed
generation) plus a flag `markStaleMetrics` selecting which one a scrape
(`CollectWithStability`) serves.  `ClearStoredMetric` starts a cycle,
`FinishedAllChecks` ends it, `AddMetric` appends a sample.  Samples are
opaque to the buffer, so they are embedded as an arbitrary type `α`.
Channel sends (`ch <- m`) are embedded as appending to the list of values
sent so far.
-/

namespace VSphereMetrics

/-- Static identity of a metric family, mirroring the fields of
`k8s.io/component-base/metrics.Desc` that the source supplies via
`metrics.NewDesc`: fully-qualified name, help text, ordered variable
label names, constant labels, stability level and deprecation version. -/
structure Desc where
  fqName : String
  help : String
  variableLabels : List String
  constLabels : List (String × String)
  stabilityLevel : String
  deprecatedVersion : String
deriving DecidableEq, Repr

/-- `metrics.NewDesc(fqName, help, variableLabels, constLabels, stabilityLevel, deprecatedVersion)`. -/
def NewDesc (fqName help : String) (variableLabels : List String)
    (constLabels : List (String × String)) (stabilityLevel deprecatedVersion : String) : Desc :=
  ⟨fqName, help, variableLabels, constLabels, stabilityLevel, deprecatedVersion⟩

/-- `VersionLabel = "version"` (collector.go). -/
def VersionLabel : String := "version"

/-- `BuildLabel = "build"` (collector.go). -/
def BuildLabel : String := "build"

/-- `ApiVersionLabel = "api_version"` (collector.go). -/
def ApiVersionLabel : String := "api_version"

/-- `vCenterUUID = "uuid"` (collector.go). -/
def vCenterUUID : String := "uuid"

/-- `HwVersionLabel = "hw_version"` (collector.go). -/
def HwVersionLabel : String := "hw_version"

/-- `cbtMismatchLabel = "cbt"` (collector.go). -/
def cbtMismatchLabel : String := "cbt"

/-- `EsxiVersionMetric` descriptor (collector.go). -/
def EsxiVersionMetric : Desc :=
  NewDesc "vsphere_esxi_version_total"
    "Number of ESXi hosts with given version."
    [VersionLabel, ApiVersionLabel] []
    "ALPHA" ""

/-- `HwVersionMetric` descriptor (collector.go). -/
def HwVersionMetric : Desc :=
  NewDesc "vsphere_node_hw_version_total"
    "Number of vSphere nodes with given HW version."
    [HwVersionLabel] []
    "ALPHA" ""

/-- `CbtMismatchMetric` descriptor (collector.go). -/
def CbtMismatchMetric : Desc :=
  NewDesc "vsphere_vm_cbt_checks"
    "Boolean metric based on whether ctkEnabled is consistent or not across all nodes in the cluster."
    [cbtMismatchLabel] []
    "ALPHA" ""

/-- The mutable fields of the Go `Collector` struct: the in-flight
generation `storedMetrics`, the last completed generation `staleMetrics`,
and the flag `markStaleMetrics` selecting which one scrapes see.
The `sync.RWMutex` only serializes access and carries no state. -/
structure Collector (α : Type) where
  storedMetrics : List α
  staleMetrics : List α
  markStaleMetrics : Bool
deriving DecidableEq, Repr

/-- `NewMetricsCollector()`: empty generations, `markStaleMetrics = false`. -/
def NewMetricsCollector (α : Type) : Collector α :=
  { storedMetrics := [], staleMetrics := [], markStaleMetrics := false }

/-- `DescribeWithStability(ch)`: sends the three fixed descriptors, in
order, to the channel; the receiver ignores the collector state entirely.
The result is the sequence of descriptors sent. -/
def DescribeWithStability (_c : Collector α) : List Desc :=
  [EsxiVersionMetric, HwVersionMetric, CbtMismatchMetric]

/-- One channel send `ch <- m`: the value is appended to those already sent. -/
def chanSend (ch : List α) (m : α) : List α :=
  ch ++ [m]

/-- `CollectWithStability(ch)`: under the read lock, ranges over
`staleMetrics` when `markStaleMetrics` is set, otherwise over
`storedMetrics`, sending each element to the channel.  The result is the
sequence of samples sent. -/
def CollectWithStability (c : Collector α) : List α :=
  if c.markStaleMetrics then
    c.staleMetrics.foldl chanSend []
  else
    c.storedMetrics.foldl chanSend []

/-- `AddMetric(m)`: appends `m` to `storedMetrics` under the write lock. -/
def AddMetric (c : Collector α) (m : α) : Collector α :=
  { c with storedMetrics := c.storedMetrics ++ [m] }

/-- `ClearStoredMetric()`: if the last check did not finish
(`markStaleMetrics` already true) the guarded block is skipped, keeping
`staleMetrics`; otherwise the flag is set and `staleMetrics` takes the
value of `storedMetrics`.  In both cases `storedMetrics` is then reset to
the empty slice. -/
def ClearStoredMetric (c : Collector α) : Collector α :=
  let c' :=
    if !c.markStaleMetrics then
      { c with markStaleMetrics := true, staleMetrics := c.storedMetrics }
    else
      c
  { c' with storedMetrics := [] }

/-- `FinishedAllChecks()`: `staleMetrics` takes the value of
`storedMetrics` and `markStaleMetrics` is cleared. -/
def FinishedAllChecks (c : Collector α) : Collector α :=
  { c with staleMetrics := c.storedMetrics, markStaleMetrics := false }

/-- One mutating call on the collector, for reasoning about call sequences. -/
inductive Op (α : Type) where
  | addMetric (m : α)
  | clearStoredMetric
  | finishedAllChecks
deriving DecidableEq, Repr

/-- Apply one call to the collector state. -/
def step (c : Collector α) : Op α → Collector α
  | .addMetric m => AddMetric c m
  | .clearStoredMetric => ClearStoredMetric c
  | .finishedAllChecks => FinishedAllChecks c

/-- Apply a sequence of calls, left to right. -/
def run (c : Collector α) (ops : List (Op α)) : Collector α :=
  ops.foldl step c

/-- Sending every element of `ms` to a channel that already carried `ch`
yields `ch ++ ms`. -/
lemma foldl_chanSend (ch ms : List α) : ms.foldl chanSend ch = ch ++ ms := by
  induction ms generalizing ch with
  | nil => simp
  | cons m ms ih => simp [chanSend, ih]

/-- `CollectWithStability` returns exactly the selected generation. -/
lemma collect_eq (c : Collector α) :
    CollectWithStability c =
      if c.markStaleMetrics then c.staleMetrics else c.storedMetrics := by
  unfold CollectWithStability
  by_cases h : c.markStaleMetrics <;> simp [h, foldl_chanSend]

/-- After `ClearStoredMetric`, the flag is set, `storedMetrics` is empty,
and `staleMetrics` holds whatever generation was authoritative on entry. -/
lemma clear_spec (c : Collector α) :
    (ClearStoredMetric c).markStaleMetrics = true ∧
    (ClearStoredMetric c).storedMetrics = [] ∧
    (ClearStoredMetric c).staleMetrics =
      (if c.markStaleMetrics then c.staleMetrics else c.storedMetrics) := by
  unfold ClearStoredMetric
  by_cases h : c.markStaleMetrics <;> simp [h]

/-- A single call that is not `FinishedAllChecks` keeps `staleMetrics`
unchanged and the flag set, whenever the flag was set on entry. -/
lemma step_no_finish (c : Collector α) (op : Op α)
    (hmark : c.markStaleMetrics = true) (hop : op ≠ Op.finishedAllChecks) :
    (step c op).staleMetrics = c.staleMetrics ∧
    (step c op).markStaleMetrics = true := by
  cases op with
  | addMetric m => exact ⟨rfl, hmark⟩
  | clearStoredMetric => simp [step, ClearStoredMetric, hmark]
  | finishedAllChecks => exact absurd rfl hop

/-- While the flag is set, any sequence of calls that contains no
`FinishedAllChecks` keeps `staleMetrics` unchanged and the flag set. -/
lemma run_no_finish (c : Collector α) (ops : List (Op α))
    (hmark : c.markStaleMetrics = true)
    (h : Op.finishedAllChecks ∉ ops) :
    (run c ops).staleMetrics = c.staleMetrics ∧
    (run c ops).markStaleMetrics = true := by
  induction ops generalizing c with
  | nil => exact ⟨rfl, hmark⟩
  | cons op ops ih =>
    have hop : op ≠ Op.finishedAllChecks := fun he => h (he ▸ List.mem_cons_self op ops)
    have hops : Op.finishedAllChecks ∉ ops := fun hx => h (List.mem_cons_of_mem _ hx)
    obtain ⟨hs, hm⟩ := step_no_finish c op hmark hop
    obtain ⟨hs', hm'⟩ := ih (step c op) hm hops
    exact ⟨hs'.trans hs, hm'⟩

/-- C1: for every buffer state, executing `ClearStoredMetric` (BeginCycle)
twice with no intervening `FinishedAllChecks` yields the same
`CollectWithStability` result as executing it once, and the second call
changes neither `staleMetrics` nor `markStaleMetrics`. -/
theorem stacked_beginCycle_no_data_loss (c : Collector α) :
    CollectWithStability (ClearStoredMetric (ClearStoredMetric c)) =
      CollectWithStability (ClearStoredMetric c) ∧
    (ClearStoredMetric (ClearStoredMetric c)).staleMetrics =
      (ClearStoredMetric c).staleMetrics ∧
    (ClearStoredMetric (ClearStoredMetric c)).markStaleMetrics =
      (ClearStoredMetric c).markStaleMetrics := by
  by_cases h : c.markStaleMetrics <;>
    simp [ClearStoredMetric, collect_eq, h]

/-- C2 counterexample: the first completed cycle can record zero samples,
after which `CollectWithStability` returns the empty sequence — refuting
the claim that it is non-empty at every point after the first completed
`BeginCycle..EndCycle` run. -/
theorem collect_empty_after_empty_cycle :
    CollectWithStability (run (NewMetricsCollector Nat)
      [Op.clearStoredMetric, Op.finishedAllChecks]) = [] := by
  decide

/-- C2 (amended): after a `ClearStoredMetric` (BeginCycle), any further
calls that do not include its matching `FinishedAllChecks` leave the
`CollectWithStability` result exactly what it was before the
`ClearStoredMetric`; in particular the result stays non-empty whenever
the generation served before the `ClearStoredMetric` was non-empty. -/
theorem no_visible_gap_while_cycle_open (c : Collector α) (ops : List (Op α))
    (h : Op.finishedAllChecks ∉ ops) :
    CollectWithStability (run (ClearStoredMetric c) ops) =
      CollectWithStability c ∧
    (CollectWithStability c ≠ [] →
      CollectWithStability (run (ClearStoredMetric c) ops) ≠ []) := by
  obtain ⟨h1, _h2, h3⟩ := clear_spec c
  obtain ⟨hs, hm⟩ := run_no_finish (ClearStoredMetric c) ops h1 h
  have heq : CollectWithStability (run (ClearStoredMetric c) ops) =
      CollectWithStability c := by
    rw [collect_eq, collect_eq, hm, if_pos rfl, hs, h3]
  exact ⟨heq, fun hne => heq ▸ hne⟩

/-- C2 witness: on a concrete buffer holding one committed sample, a
`ClearStoredMetric` followed by a record and another `ClearStoredMetric`
leaves the scraped result unchanged. -/
theorem no_visible_gap_while_cycle_open_witness :
    (Op.finishedAllChecks ∉ [Op.addMetric 1, Op.clearStoredMetric]) ∧
    CollectWithStability (run (ClearStoredMetric (⟨[5], [7], false⟩ : Collector Nat))
        [Op.addMetric 1, Op.clearStoredMetric]) =
      CollectWithStability (⟨[5], [7], false⟩ : Collector Nat) :=
  ⟨by decide,
   (no_visible_gap_while_cycle_open (⟨[5], [7], false⟩ : Collector Nat)
      [Op.addMetric 1, Op.clearStoredMetric] (by decide)).1⟩

/-- C3 counterexample: from the reachable state obtained by
`ClearStoredMetric` then `AddMetric 0`, where the flag is already set,
another `ClearStoredMetric` does change the buffer — it clears
`storedMetrics` — so the whole state is not left exactly as before. -/
theorem beginCycle_not_full_noop_when_stale :
    (run (NewMetricsCollector Nat)
        [Op.clearStoredMetric, Op.addMetric 0]).markStaleMetrics = true ∧
    ClearStoredMetric (run (NewMetricsCollector Nat)
        [Op.clearStoredMetric, Op.addMetric 0]) ≠
      run (NewMetricsCollector Nat) [Op.clearStoredMetric, Op.addMetric 0] := by
  decide

/-- C3 (amended): when `markStaleMetrics` is already true,
`ClearStoredMetric` keeps `staleMetrics` and the flag unchanged, but it
still resets `storedMetrics` to the empty sequence. -/
theorem beginCycle_when_already_stale (c : Collector α)
    (h : c.markStaleMetrics = true) :
    (ClearStoredMetric c).staleMetrics = c.staleMetrics ∧
    (ClearStoredMetric c).markStaleMetrics = true ∧
    (ClearStoredMetric c).storedMetrics = [] := by
  simp [ClearStoredMetric, h]

/-- C3 witness: the amended behaviour at a concrete stale-marked buffer. -/
theorem beginCycle_when_already_stale_witness :
    (⟨[0], [1], true⟩ : Collector Nat).markStaleMetrics = true ∧
    ((ClearStoredMetric (⟨[0], [1], true⟩ : Collector Nat)).staleMetrics =
        (⟨[0], [1], true⟩ : Collector Nat).staleMetrics ∧
     (ClearStoredMetric (⟨[0], [1], true⟩ : Collector Nat)).markStaleMetrics = true ∧
     (ClearStoredMetric (⟨[0], [1], true⟩ : Collector Nat)).storedMetrics = []) :=
  ⟨rfl, beginCycle_when_already_stale (⟨[0], [1], true⟩ : Collector Nat) rfl⟩

/-- C4: from any buffer state, `ClearStoredMetric`, two `AddMetric` calls
and `FinishedAllChecks` leave the buffer scraping exactly the two fresh
samples, in order, with no residual entries from earlier generations. -/
theorem fresh_cycle_supersedes_stale (c : Collector α) (a b : α) :
    CollectWithStability
        (FinishedAllChecks (AddMetric (AddMetric (ClearStoredMetric c) a) b)) =
      [a, b] := by
  by_cases h : c.markStaleMetrics <;>
    simp [ClearStoredMetric, AddMetric, FinishedAllChecks, collect_eq, h]

/-- C5 counterexample: the third descriptor sent by
`DescribeWithStability` is `CbtMismatchMetric`, and its label list is
`["cbt"]`, not `["cbt_mismatch_flag"]` as the claim states. -/
theorem cbt_label_is_cbt_not_mismatch_flag :
    (DescribeWithStability (NewMetricsCollector Nat)).get? 2 =
      some CbtMismatchMetric ∧
    CbtMismatchMetric.variableLabels ≠ ["cbt_mismatch_flag"] := by
  constructor
  · rfl
  · decide

/-- C5 (amended): `DescribeWithStability` returns exactly the three fixed
descriptors in order — `EsxiVersionMetric`, `HwVersionMetric`,
`CbtMismatchMetric` — with label lists `[version, api_version]`,
`[hw_version]` and `[cbt]`, independently of the buffer state, and it
does not touch the buffer. -/
theorem describe_fixed_descriptors (c c' : Collector α) :
    DescribeWithStability c =
      [EsxiVersionMetric, HwVersionMetric, CbtMismatchMetric] ∧
    DescribeWithStability c = DescribeWithStability c' ∧
    EsxiVersionMetric.variableLabels = [VersionLabel, ApiVersionLabel] ∧
    HwVersionMetric.variableLabels = [HwVersionLabel] ∧
    CbtMismatchMetric.variableLabels = [cbtMismatchLabel] ∧
    cbtMismatchLabel = "cbt" :=
  ⟨rfl, rfl, rfl, rfl, rfl, rfl⟩

/-- C6: when `markStaleMetrics` is false, `ClearStoredMetric` moves the
entering `storedMetrics` into `staleMetrics`, sets the flag, and resets
`storedMetrics` to empty. -/
theorem beginCycle_normal_case (c : Collector α)
    (h : c.markStaleMetrics = false) :
    (ClearStoredMetric c).staleMetrics = c.storedMetrics ∧
    (ClearStoredMetric c).markStaleMetrics = true ∧
    (ClearStoredMetric c).storedMetrics = [] := by
  simp [ClearStoredMetric, h]

/-- C6 witness: the normal case at a concrete fresh-marked buffer. -/
theorem beginCycle_normal_case_witness :
    (⟨[2], [3], false⟩ : Collector Nat).markStaleMetrics = false ∧
    ((ClearStoredMetric (⟨[2], [3], false⟩ : Collector Nat)).staleMetrics =
        (⟨[2], [3], false⟩ : Collector Nat).storedMetrics ∧
     (ClearStoredMetric (⟨[2], [3], false⟩ : Collector Nat)).markStaleMetrics = true ∧
     (ClearStoredMetric (⟨[2], [3], false⟩ : Collector Nat)).storedMetrics = []) :=
  ⟨rfl, beginCycle_normal_case (⟨[2], [3], false⟩ : Collector Nat) rfl⟩

/-- C7: `FinishedAllChecks` sets `staleMetrics` equal to `storedMetrics`
and clears the flag, leaving `storedMetrics` itself unchanged, so that
afterwards both generations hold the same sequence. -/
theorem endCycle_commits_current (c : Collector α) :
    (FinishedAllChecks c).staleMetrics = c.storedMetrics ∧
    (FinishedAllChecks c).markStaleMetrics = false ∧
    (FinishedAllChecks c).storedMetrics = c.storedMetrics ∧
    (FinishedAllChecks c).staleMetrics = (FinishedAllChecks c).storedMetrics :=
  ⟨rfl, rfl, rfl, rfl⟩

/-- C8: `CollectWithStability` returns exactly `staleMetrics` when the
flag is set and exactly `storedMetrics` otherwise — always one whole
generation, never a mixture — and, being a pure read, it leaves the
buffer unchanged. -/
theorem collect_serves_one_generation (c : Collector α) :
    CollectWithStability c =
      (if c.markStaleMetrics then c.staleMetrics else c.storedMetrics) ∧
    (CollectWithStability c = c.staleMetrics ∨
     CollectWithStability c = c.storedMetrics) := by
  refine ⟨collect_eq c, ?_⟩
  rw [collect_eq]
  by_cases h : c.markStaleMetrics <;> simp [h]

/-- C9: `AddMetric` appends the sample as new last element of
`storedMetrics`, growing it by one, leaves `staleMetrics` and the flag
unchanged, and on a fresh buffer a single recorded sample is scraped
back as `[x]`. -/
theorem addMetric_appends (c : Collector α) (x : α) :
    (AddMetric c x).storedMetrics = c.storedMetrics ++ [x] ∧
    (AddMetric c x).storedMetrics.length = c.storedMetrics.length + 1 ∧
    (AddMetric c x).staleMetrics = c.staleMetrics ∧
    (AddMetric c x).markStaleMetrics = c.markStaleMetrics ∧
    CollectWithStability (AddMetric (NewMetricsCollector α) x) = [x] := by
  refine ⟨rfl, by simp [AddMetric], rfl, rfl, ?_⟩
  simp [AddMetric, NewMetricsCollector, collect_eq]

/-- C10: for every buffer state, including those with the flag already
set, `ClearStoredMetric` leaves `storedMetrics` empty and the flag true. -/
theorem beginCycle_always_clears_current (c : Collector α) :
    (ClearStoredMetric c).storedMetrics = [] ∧
    (ClearStoredMetric c).markStaleMetrics = true :=
  ⟨(clear_spec c).2.1, (clear_spec c).1⟩

end VSphereMetrics
